import Mathlib

/-!
Verification of the statistics import pipeline of the `nba-analytics`
repository: a shallow embedding of the CSV-to-database aggregation and
upsert code in `src/data_import/` together with its duplicated importer
variants, and proofs of the frozen claims about it.

Conventions of the embedding:
* CSV cell values are modelled by `PyVal` (None, float, int, str, bool),
  with floats modelled exactly (`PyFloat` is NaN or a rational); no claim
  settled here depends on IEEE rounding, only on which value is produced.
* pandas operations used by the code (`isna`, `Series.mean` with its
  NaN-skipping, `groupby`, string strip/lower, substring tests) are
  modelled explicitly below, next to the code that uses them.
* Database tables are association lists from the upsert key to a row; SQL
  `ON CONFLICT ... DO UPDATE` is the `upsert` function on such tables.
  The random uuid `id` column is not modelled (it is never read back).
-/

/-- Floating-point cell value: NaN or a finite value. Finite values are
modelled as rationals; exact arithmetic stands in for IEEE doubles, which
is adequate because no claim below depends on rounding. -/
inductive PyFloat where
  | nan
  | val (q : ℚ)
deriving DecidableEq

/-- A Python scalar value as it can appear in a pandas cell. -/
inductive PyVal where
  | none
  | float (f : PyFloat)
  | int (n : ℤ)
  | str (s : String)
  | bool (b : Bool)
deriving DecidableEq

/-- Models `pd.isna` on scalars: true exactly for `None` and float NaN. -/
def pyIsNa : PyVal → Bool
  | .none => true
  | .float .nan => true
  | _ => false

/-- Python truthiness of a scalar (`bool(value)`); NaN is truthy. -/
def pyTruthy : PyVal → Bool
  | .none => false
  | .float .nan => true
  | .float (.val q) => !(q == 0)
  | .int n => !(n == 0)
  | .str s => !(s == "")
  | .bool b => b

/-- Models the Python comparison with the empty string literal: only a
string compares equal to it. -/
def pyEqEmptyStr : PyVal → Bool
  | .str s => s == ""
  | _ => false

/-- Models Python `str` on scalars. Rationals are rendered as `num/den`;
the exact decimal rendering of numbers is immaterial to every claim (only
which letters can occur in it matters). -/
def pyStr : PyVal → String
  | .none => "None"
  | .float .nan => "nan"
  | .float (.val q) => toString q.num ++ "/" ++ Nat.repr q.den
  | .int n => toString n
  | .str s => s
  | .bool b => if b then "True" else "False"

/-- Model of `str.strip` on the character list of a string. -/
def stripChars (cs : List Char) : List Char :=
  ((cs.dropWhile Char.isWhitespace).reverse.dropWhile Char.isWhitespace).reverse

/-- Model of `str.lower` on the character list of a string. -/
def lowerChars (cs : List Char) : List Char :=
  cs.map Char.toLower

/-- Model of `str.strip().lower()` as used by the importers. -/
def normStripLower (s : String) : String :=
  ⟨lowerChars (stripChars s.data)⟩

/-- Does the second list occur at the head of the first? -/
def headMatches : List Char → List Char → Bool
  | [], _ => true
  | _ :: _, [] => false
  | p :: ps, c :: cs => p == c && headMatches ps cs

/-- Does `pat` occur as a contiguous run inside the list? -/
def lcontainsSub (pat : List Char) : List Char → Bool
  | [] => pat.isEmpty
  | c :: cs => headMatches pat (c :: cs) || lcontainsSub pat cs

/-- Model of the Python substring test `pat in s`. -/
def strContainsSub (s pat : String) : Bool :=
  lcontainsSub pat.data s.data

/-- Is the character a decimal digit? -/
def isDigitChar (c : Char) : Bool :=
  '0' ≤ c && c ≤ '9'

/-- Value of a list of decimal digit characters. -/
def digitsToNat (cs : List Char) : Nat :=
  cs.foldl (fun a c => a * 10 + (c.toNat - '0'.toNat)) 0

/-- Parse an unsigned decimal literal (integer part, optional dot and
fractional part, at least one digit overall). -/
def parseDecimalCore (cs : List Char) : Option ℚ :=
  let ip := cs.takeWhile (fun c => !(c == '.'))
  match cs.dropWhile (fun c => !(c == '.')) with
  | [] =>
      if !ip.isEmpty && ip.all isDigitChar then some (digitsToNat ip)
      else Option.none
  | _ :: fp =>
      if (!ip.isEmpty || !fp.isEmpty) && ip.all isDigitChar && fp.all isDigitChar then
        some ((digitsToNat ip : ℚ) + (digitsToNat fp : ℚ) / 10 ^ fp.length)
      else Option.none

/-- Model of Python `float(str)`: optional sign around a decimal literal,
surrounding whitespace ignored. (Exponent forms, `inf`/`nan` literals and
underscores are not modelled; no claim depends on them.) -/
def parsePyFloat (s : String) : Option ℚ :=
  match stripChars s.data with
  | '-' :: rest => (parseDecimalCore rest).map (fun q => -q)
  | '+' :: rest => parseDecimalCore rest
  | cs => parseDecimalCore cs

/-- Models Python `float(value)` on scalars: `None` is not convertible
(`TypeError`), strings parse as decimal literals, numbers convert to
themselves, booleans to 0 or 1. -/
def pyFloatConv : PyVal → Option PyFloat
  | .none => Option.none
  | .float f => some f
  | .int n => some (.val (n : ℚ))
  | .bool b => some (.val (if b then 1 else 0))
  | .str s => (parsePyFloat s).map .val

/-- Models `pandas.Series.mean`: NaN entries are skipped; the mean of an
empty or all-NaN series is NaN. -/
def seriesMean (xs : List PyFloat) : PyFloat :=
  let vs := xs.filterMap (fun f => match f with | .nan => Option.none | .val q => some q)
  if vs.isEmpty then .nan else .val (vs.sum / vs.length)

/-- The exceptions `float(value)` can raise: ValueError on an unparsable
string, TypeError on a non-numeric non-string type such as None, and
OverflowError on an integer outside the double range. -/
inductive PyExn where
  | valueError
  | typeError
  | overflowError
deriving DecidableEq

/-- Values of the exception-faithful `float()` model: NaN, a signed
infinity (which `float(str)` can produce from "inf"/"infinity" literals),
or a finite value (an exact rational in place of a double). -/
inductive PyFloatExt where
  | nan
  | inf (neg : Bool)
  | val (q : ℚ)
deriving DecidableEq

/-- Embedding of the NaN-or-finite float model into the extended one. -/
def PyFloat.toExt : PyFloat → PyFloatExt
  | .nan => .nan
  | .val q => .val q

/-- The result of a call that can raise: a value or a raised exception. -/
inductive FloatResult where
  | ok (f : PyFloatExt)
  | raised (e : PyExn)
deriving DecidableEq

/-- No two adjacent underscores in the character list. -/
def noDoubleUnderscore : List Char → Bool
  | [] => true
  | [_] => true
  | c1 :: c2 :: rest => !(c1 == '_' && c2 == '_') && noDoubleUnderscore (c2 :: rest)

/-- A digit group of a Python numeric literal: digits with underscores
strictly between digits. Returns the digits with underscores removed (an
empty group is valid and empty; callers require digits where Python
does). -/
def underscoredDigits (cs : List Char) : Option (List Char) :=
  if cs.all (fun c => isDigitChar c || c == '_') && noDoubleUnderscore cs &&
      !(cs.head? == some '_') && !(cs.getLast? == some '_') then
    some (cs.filter fun c => !(c == '_'))
  else Option.none

/-- A nonempty underscored digit group, as a number. -/
def parseExpDigits (cs : List Char) : Option Nat :=
  match underscoredDigits cs with
  | some ds => if ds.isEmpty then Option.none else some (digitsToNat ds)
  | Option.none => Option.none

/-- Split a float literal body at its `e`/`E` exponent marker. -/
def splitExponent (cs : List Char) : List Char × Option (List Char) :=
  let m := cs.takeWhile (fun c => !(c == 'e' || c == 'E'))
  match cs.dropWhile (fun c => !(c == 'e' || c == 'E')) with
  | [] => (m, Option.none)
  | _ :: ex => (m, some ex)

/-- The mantissa of a float literal: integer part, optional dot and
fractional part, underscores between digits, at least one digit. -/
def parseMantissa (cs : List Char) : Option ℚ :=
  let ip := cs.takeWhile (fun c => !(c == '.'))
  match cs.dropWhile (fun c => !(c == '.')) with
  | [] =>
      match underscoredDigits ip with
      | some di => if di.isEmpty then Option.none else some (digitsToNat di)
      | Option.none => Option.none
  | _ :: fp =>
      match underscoredDigits ip, underscoredDigits fp with
      | some di, some df =>
          if di.isEmpty && df.isEmpty then Option.none
          else some ((digitsToNat di : ℚ) + (digitsToNat df : ℚ) / 10 ^ df.length)
      | _, _ => Option.none

/-- The optionally-signed exponent of a float literal. -/
def parseExponent (cs : List Char) : Option ℤ :=
  match cs with
  | '-' :: rest => (parseExpDigits rest).map (fun n => -(n : ℤ))
  | '+' :: rest => (parseExpDigits rest).map (fun n => (n : ℤ))
  | _ => (parseExpDigits cs).map (fun n => (n : ℤ))

/-- Case-insensitive comparison with a lowercase literal. -/
def lowerEq (cs : List Char) (pat : String) : Bool :=
  lowerChars cs == pat.data

/-- The body of a float literal after its sign: the case-insensitive
inf/infinity/nan specials, or mantissa with optional exponent. -/
def parseFloatBody (body : List Char) (neg : Bool) : Option PyFloatExt :=
  if lowerEq body "inf" || lowerEq body "infinity" then some (.inf neg)
  else if lowerEq body "nan" then some .nan
  else
    match splitExponent body with
    | (m, Option.none) =>
        (parseMantissa m).map (fun q => .val (if neg then -q else q))
    | (m, some ex) =>
        match parseMantissa m, parseExponent ex with
        | some q, some z => some (.val ((if neg then -q else q) * (10 : ℚ) ^ z))
        | _, _ => Option.none

/-- Model of Python `float(str)` on the full literal grammar: surrounding
whitespace, optional sign, inf/infinity/nan specials, decimal mantissa
with underscores and optional exponent. (Values are exact rationals:
literals large enough to round to infinity stay finite here; no claim
depends on that rounding.) -/
def parsePyFloatChecked (s : String) : Option PyFloatExt :=
  match stripChars s.data with
  | '-' :: rest => parseFloatBody rest true
  | '+' :: rest => parseFloatBody rest false
  | cs => parseFloatBody cs false

/-- Exception-faithful model of `float(value)` on scalars: which
exception float() raises, or which float it returns. None raises
TypeError; an unparsable string raises ValueError; an integer whose
magnitude reaches 2^1024 exceeds the double range and raises
OverflowError (the boundary cases within one rounding step of 2^1024 are
idealised); floats and booleans convert to themselves. -/
def pyFloatConvChecked : PyVal → FloatResult
  | .none => .raised .typeError
  | .float f => .ok f.toExt
  | .int n => if n.natAbs < 2 ^ 1024 then .ok (.val (n : ℚ)) else .raised .overflowError
  | .bool b => .ok (.val (if b then 1 else 0))
  | .str s =>
      match parsePyFloatChecked s with
      | some f => .ok f
      | Option.none => .raised .valueError

namespace StatsImporter

/-- Source: StatsImporter._safe_float (src/data_import/stats_importer.py
lines 211-219): NaN, the empty string and None give 0.0, otherwise
float(value) with conversion failures giving 0.0. -/
def safe_float (value : PyVal) : PyFloat :=
  if pyIsNa value || pyEqEmptyStr value || value == PyVal.none then .val 0
  else
    match pyFloatConv value with
    | some f => f
    | Option.none => .val 0

/-- Source: StatsImporter._safe_float (src/data_import/stats_importer.py
lines 211-219) with the exception paths of float() modelled: the body's
`except (ValueError, TypeError)` turns those two exceptions into 0.0, but
an OverflowError from a huge integer is not caught and propagates out of
_safe_float. The total `safe_float` above is the restriction used at the
float-typed call sites of the aggregation helpers, where the two models
provably agree (`safe_float_checked_on_floats`). -/
def safe_float_checked (value : PyVal) : FloatResult :=
  if pyIsNa value || pyEqEmptyStr value || value == PyVal.none then .ok (.val 0)
  else
    match pyFloatConvChecked value with
    | .ok f => .ok f
    | .raised .valueError => .ok (.val 0)
    | .raised .typeError => .ok (.val 0)
    | .raised .overflowError => .raised .overflowError

/-- Source: the season_year column (stats_importer.py lines 38-39 and
90-91): the row's calendar year, minus one for Playoffs rows whose month
lies in April through June. -/
def seasonYearOf (gameType : String) (year month : Nat) : Nat :=
  if gameType == "Playoffs" && (4 ≤ month && month ≤ 6) then year - 1 else year

end StatsImporter

/-- Source: the season-string idiom shared by stats_importer.py line 41/93,
fast_player_stats_import.py line 71 and working_player_stats_import.py
line 72: the Python expression str(y) + "-" + str(y + 1)[2:]. -/
def seasonString (y : Nat) : String :=
  Nat.repr y ++ "-" ++ (Nat.repr (y + 1)).drop 2

namespace GameImporter

/-- Source: GameImporter._extract_season (src/data_import/game_importer.py
lines 148-157). -/
def extract_season (year month : Nat) : String :=
  if 10 ≤ month then Nat.repr year ++ "-" ++ (Nat.repr (year + 1)).drop 2
  else Nat.repr (year - 1) ++ "-" ++ (Nat.repr year).drop 2

/-- Source: GameImporter._get_season_type (src/data_import/game_importer.py
lines 159-170). -/
def get_season_type (season_type : PyVal) : String :=
  if !pyTruthy season_type || pyIsNa season_type then "Regular Season"
  else
    let s := normStripLower (pyStr season_type)
    if strContainsSub s "playoff" then "Playoffs"
    else if strContainsSub s "preseason" then "Preseason"
    else "Regular Season"

end GameImporter

/-- Spec-side reading of "the last two digits of n": two characters,
zero-padded. Compared below with the code's string slice. -/
def lastTwoDigits (n : Nat) : String :=
  (if n % 100 < 10 then "0" else "") ++ Nat.repr (n % 100)

/-- A stored database row: its data columns plus the two timestamp columns
the SQL maintains (`createdAt` is written on insert only, `updatedAt` on
every write). The random uuid `id` column is not modelled. -/
structure Entry (β : Type) where
  data : β
  createdAt : Nat
  updatedAt : Nat
deriving DecidableEq

/-- A database table carrying a unique key: an association list from the
upsert key to the stored row. -/
abbrev Table (κ β : Type) := List (κ × Entry β)

/-- Source: the INSERT ... ON CONFLICT ... DO UPDATE statements of
DatabaseManager.create_team_stats and create_player_stats
(src/data_import/database.py lines 109-167): insert a fresh row under the
key, or, when a row with the same key exists, re-write every data column
of that row and its updatedAt timestamp. -/
def upsert [DecidableEq κ] (k : κ) (d : β) (now : Nat) : Table κ β → Table κ β
  | [] => [(k, ⟨d, now, now⟩)]
  | (k', e) :: t =>
      if k = k' then (k', ⟨d, e.createdAt, now⟩) :: t
      else (k', e) :: upsert k d now t

/-- A sequence of upserts, applied left to right. -/
def applyUpserts [DecidableEq κ] (us : List (κ × β)) (now : Nat) (t : Table κ β) : Table κ β :=
  us.foldl (fun t u => upsert u.1 u.2 now t) t

/-- The data columns stored under key `k` (every column except the id and
the createdAt/updatedAt timestamps). -/
def dataAt [DecidableEq κ] (k : κ) : Table κ β → Option β
  | [] => Option.none
  | (k', e) :: t => if k = k' then some e.data else dataAt k t

/-- The value of the last upsert in the sequence that writes key `k`. -/
def lastWrite [DecidableEq κ] (k : κ) : List (κ × β) → Option β
  | [] => Option.none
  | u :: us =>
      match lastWrite k us with
      | some d => some d
      | Option.none => if u.1 = k then some u.2 else Option.none

/-- Model of a pandas `groupby`: the distinct keys paired with the rows
carrying that key. (Keys are listed in first-occurrence order; pandas
sorts them instead, but no claim settled here depends on the order in
which distinct groups are emitted.) -/
def groupBy [DecidableEq κ] (key : ρ → κ) (rows : List ρ) : List (κ × List ρ) :=
  (distinctKeys (rows.map key)).map fun k => (k, rows.filter fun r => decide (key r = k))
where
  distinctKeys : List κ → List κ
    | [] => []
    | k :: ks => k :: (distinctKeys ks).filter fun k' => decide (k' ≠ k)

/-- Model of `dict.get` followed by the `if not x` falsiness test the
importers apply to the looked-up id: a missing key and the empty string
both count as not found. -/
def lookupNonFalsy (m : List (String × String)) (k : String) : Option String :=
  match m.lookup k with
  | Option.none => Option.none
  | some s => if s == "" then Option.none else some s

/-- One row of TeamStatistics.csv, restricted to the columns
StatsImporter reads. `year` and `month` are the fields of the parsed
gameDate column. -/
structure TeamRow where
  teamName : String
  year : Nat
  month : Nat
  gameType : String
  win : Int
  teamScore : PyFloat
  opponentScore : PyFloat
  fieldGoalsPercentage : PyFloat
  threePointersPercentage : PyFloat
  freeThrowsPercentage : PyFloat
  reboundsTotal : PyFloat
  assists : PyFloat
  turnovers : PyFloat
  steals : PyFloat
  blocks : PyFloat
deriving DecidableEq

/-- One row of PlayerStatistics.csv, restricted to the columns the player
importers read. -/
structure PlayerRow where
  firstName : String
  lastName : String
  year : Nat
  month : Nat
  gameType : String
  win : Int
  numMinutes : PyFloat
  points : PyFloat
  reboundsTotal : PyFloat
  assists : PyFloat
  steals : PyFloat
  blocks : PyFloat
  turnovers : PyFloat
  plusMinusPoints : PyFloat
  fieldGoalsPercentage : PyFloat
  threePointersPercentage : PyFloat
  freeThrowsPercentage : PyFloat
deriving DecidableEq

/-- The aggregate record built by StatsImporter._process_team_stats_group
and written to the team_stats table. -/
structure TeamStatsData where
  teamId : String
  season : String
  gamesPlayed : Nat
  wins : Nat
  losses : Nat
  pointsPerGame : PyFloat
  pointsAllowed : PyFloat
  fieldGoalPct : PyFloat
  threePointPct : PyFloat
  freeThrowPct : PyFloat
  rebounds : PyFloat
  assists : PyFloat
  turnovers : PyFloat
  steals : PyFloat
  blocks : PyFloat
deriving DecidableEq

/-- The aggregate record built by StatsImporter._process_player_stats_group
and written to the player_stats table. -/
structure PlayerStatsData where
  playerId : String
  season : String
  seasonType : String
  gamesPlayed : Nat
  minutesPerGame : PyFloat
  pointsPerGame : PyFloat
  rebounds : PyFloat
  assists : PyFloat
  steals : PyFloat
  blocks : PyFloat
  turnovers : PyFloat
  fieldGoalPct : PyFloat
  threePointPct : PyFloat
  freeThrowPct : PyFloat
deriving DecidableEq

namespace StatsImporter

/-- The season column assigned to a TeamStatistics.csv row
(stats_importer.py lines 32-41). -/
def teamRowSeason (r : TeamRow) : String :=
  seasonString (seasonYearOf r.gameType r.year r.month)

/-- The season column assigned to a PlayerStatistics.csv row
(stats_importer.py lines 84-93). -/
def playerRowSeason (r : PlayerRow) : String :=
  seasonString (seasonYearOf r.gameType r.year r.month)

/-- Source: the team-id resolution of import_team_stats_from_csv
(stats_importer.py lines 47-54): look the name up in SHORT_TEAM_MAPPING,
fall back to the constructor-supplied team_mapping, and treat a falsy
result (missing or empty) as not found. -/
def resolveTeamId (shortM teamM : List (String × String)) (team_name : String) : Option String :=
  match lookupNonFalsy shortM team_name with
  | some tid => some tid
  | Option.none => lookupNonFalsy teamM team_name

/-- Source: StatsImporter._process_team_stats_group (stats_importer.py
lines 124-168). `hasWin` models the `'win' in group.columns` test; the
remaining columns exist in TeamStatistics.csv and are modelled as always
present. The source returns None only when an exception escapes the
arithmetic, which cannot happen in this total model. -/
def process_team_stats_group (hasWin : Bool) (group : List TeamRow)
    (team_id : String) (season : String) : TeamStatsData :=
  let games_played := group.length
  let wins := if hasWin then (group.filter fun r => decide (r.win = 1)).length else 0
  let losses := games_played - wins
  { teamId := team_id
    season := season
    gamesPlayed := games_played
    wins := wins
    losses := losses
    pointsPerGame := safe_float (.float (seriesMean (group.map (·.teamScore))))
    pointsAllowed := safe_float (.float (seriesMean (group.map (·.opponentScore))))
    fieldGoalPct := safe_float (.float (seriesMean (group.map (·.fieldGoalsPercentage))))
    threePointPct := safe_float (.float (seriesMean (group.map (·.threePointersPercentage))))
    freeThrowPct := safe_float (.float (seriesMean (group.map (·.freeThrowsPercentage))))
    rebounds := safe_float (.float (seriesMean (group.map (·.reboundsTotal))))
    assists := safe_float (.float (seriesMean (group.map (·.assists))))
    turnovers := safe_float (.float (seriesMean (group.map (·.turnovers))))
    steals := safe_float (.float (seriesMean (group.map (·.steals))))
    blocks := safe_float (.float (seriesMean (group.map (·.blocks)))) }

/-- Source: StatsImporter._process_player_stats_group (stats_importer.py
lines 170-209). -/
def process_player_stats_group (group : List PlayerRow)
    (player_id : String) (season : String) (game_type : String) : PlayerStatsData :=
  { playerId := player_id
    season := season
    seasonType := game_type
    gamesPlayed := group.length
    minutesPerGame := safe_float (.float (seriesMean (group.map (·.numMinutes))))
    pointsPerGame := safe_float (.float (seriesMean (group.map (·.points))))
    rebounds := safe_float (.float (seriesMean (group.map (·.reboundsTotal))))
    assists := safe_float (.float (seriesMean (group.map (·.assists))))
    steals := safe_float (.float (seriesMean (group.map (·.steals))))
    blocks := safe_float (.float (seriesMean (group.map (·.blocks))))
    turnovers := safe_float (.float (seriesMean (group.map (·.turnovers))))
    fieldGoalPct := safe_float (.float (seriesMean (group.map (·.fieldGoalsPercentage))))
    threePointPct := safe_float (.float (seriesMean (group.map (·.threePointersPercentage))))
    freeThrowPct := safe_float (.float (seriesMean (group.map (·.freeThrowsPercentage)))) }

/-- State threaded through an import loop: the table being written plus
the stats_created / stats_skipped counters. -/
structure TeamImportState where
  table : Table (String × String) TeamStatsData
  created : Nat
  skipped : Nat
deriving DecidableEq

/-- One iteration of the per-group loop of import_team_stats_from_csv
(stats_importer.py lines 45-70): resolve the team id (an unresolvable
name is logged and the loop continues without touching the counters);
aggregate the group; upsert under the conflict key (teamId, season).
`raises` models which create_team_stats calls raise a database exception:
such an exception is caught, stats_skipped is incremented by one, and the
loop continues. The returned record is a non-empty dict, so the
`if not stats_data: continue` test never fires. -/
def team_loop_step (shortM teamM : List (String × String)) (hasWin : Bool)
    (raises : TeamStatsData → Bool) (now : Nat) (st : TeamImportState)
    (kg : (String × String) × List TeamRow) : TeamImportState :=
  match resolveTeamId shortM teamM kg.1.1 with
  | Option.none => st
  | some tid =>
      let d := process_team_stats_group hasWin kg.2 tid kg.1.2
      if raises d then { st with skipped := st.skipped + 1 }
      else { st with table := upsert (tid, kg.1.2) d now st.table
                     created := st.created + 1 }

/-- Source: StatsImporter.import_team_stats_from_csv (stats_importer.py
lines 22-72): assign the season column, group the rows by
(teamName, season), and run the per-group loop. -/
def import_team_stats_from_csv (shortM teamM : List (String × String)) (hasWin : Bool)
    (raises : TeamStatsData → Bool) (now : Nat) (rows : List TeamRow)
    (st : TeamImportState) : TeamImportState :=
  (groupBy (fun r => (r.teamName, teamRowSeason r)) rows).foldl
    (team_loop_step shortM teamM hasWin raises now) st

/-- State threaded through the player import loop. -/
structure PlayerImportState where
  table : Table (String × String × String) PlayerStatsData
  created : Nat
  skipped : Nat
deriving DecidableEq

/-- One iteration of the per-group loop of import_player_stats_from_csv
(stats_importer.py lines 97-120): look the player id up under the name
"first last" (a falsy id is logged and skipped without touching the
counters); aggregate the group; upsert under the conflict key
(playerId, season, seasonType). `raises` models which create_player_stats
calls raise: the exception is caught, stats_skipped is incremented by one,
and the loop continues. -/
def player_loop_step (playerM : List (String × String))
    (raises : PlayerStatsData → Bool) (now : Nat) (st : PlayerImportState)
    (kg : (String × String × String × String) × List PlayerRow) : PlayerImportState :=
  match lookupNonFalsy playerM (kg.1.1 ++ " " ++ kg.1.2.1) with
  | Option.none => st
  | some pid =>
      let d := process_player_stats_group kg.2 pid kg.1.2.2.1 kg.1.2.2.2
      if raises d then { st with skipped := st.skipped + 1 }
      else { st with table := upsert (pid, kg.1.2.2.1, kg.1.2.2.2) d now st.table
                     created := st.created + 1 }

/-- Source: StatsImporter.import_player_stats_from_csv (stats_importer.py
lines 74-122): assign the season column, group the rows by
(firstName, lastName, season, gameType), and run the per-group loop. -/
def import_player_stats_from_csv (playerM : List (String × String))
    (raises : PlayerStatsData → Bool) (now : Nat) (rows : List PlayerRow)
    (st : PlayerImportState) : PlayerImportState :=
  (groupBy (fun r => (r.firstName, r.lastName, playerRowSeason r, r.gameType)) rows).foldl
    (player_loop_step playerM raises now) st

/-- The upserts the team import performs, in loop order: one per group
whose team id resolves and whose database write does not raise. -/
def teamUpserts (shortM teamM : List (String × String)) (hasWin : Bool)
    (raises : TeamStatsData → Bool) (rows : List TeamRow) :
    List ((String × String) × TeamStatsData) :=
  (groupBy (fun r => (r.teamName, teamRowSeason r)) rows).filterMap fun kg =>
    match resolveTeamId shortM teamM kg.1.1 with
    | Option.none => Option.none
    | some tid =>
        let d := process_team_stats_group hasWin kg.2 tid kg.1.2
        if raises d then Option.none else some ((tid, kg.1.2), d)

/-- The upserts the player import performs, in loop order. -/
def playerUpserts (playerM : List (String × String))
    (raises : PlayerStatsData → Bool) (rows : List PlayerRow) :
    List ((String × String × String) × PlayerStatsData) :=
  (groupBy (fun r => (r.firstName, r.lastName, playerRowSeason r, r.gameType)) rows).filterMap fun kg =>
    match lookupNonFalsy playerM (kg.1.1 ++ " " ++ kg.1.2.1) with
    | Option.none => Option.none
    | some pid =>
        let d := process_player_stats_group kg.2 pid kg.1.2.2.1 kg.1.2.2.2
        if raises d then Option.none else some ((pid, kg.1.2.2.1, kg.1.2.2.2), d)

/-- Source: StatsImporter._process_team_stats_group (stats_importer.py
lines 124-168) including its except branch: the body's pandas arithmetic
can raise (for instance when a stat column has object dtype and .mean()
raises a TypeError); the helper catches any such exception itself and
returns None. `procRaises` says on which groups the arithmetic raises;
on the others the returned dict is the total aggregation above. -/
def process_team_stats_group_checked (hasWin : Bool)
    (procRaises : List TeamRow → Bool) (group : List TeamRow)
    (team_id season : String) : Option TeamStatsData :=
  if procRaises group then Option.none
  else some (process_team_stats_group hasWin group team_id season)

/-- Source: StatsImporter._process_player_stats_group (stats_importer.py
lines 170-209) including its except branch, as for the team helper. -/
def process_player_stats_group_checked (procRaises : List PlayerRow → Bool)
    (group : List PlayerRow) (player_id season game_type : String) :
    Option PlayerStatsData :=
  if procRaises group then Option.none
  else some (process_player_stats_group group player_id season game_type)

/-- One iteration of the team per-group loop (stats_importer.py lines
45-70) with both failure paths of the source: when the processing helper
returned None the loop's `if not stats_data: continue` moves on without
touching either counter or the table; an exception from
create_team_stats is caught by the loop's except branch, which increments
stats_skipped by one. -/
def team_loop_step_checked (shortM teamM : List (String × String)) (hasWin : Bool)
    (procRaises : List TeamRow → Bool) (insRaises : TeamStatsData → Bool) (now : Nat)
    (st : TeamImportState) (kg : (String × String) × List TeamRow) : TeamImportState :=
  match resolveTeamId shortM teamM kg.1.1 with
  | Option.none => st
  | some tid =>
      match process_team_stats_group_checked hasWin procRaises kg.2 tid kg.1.2 with
      | Option.none => st
      | some d =>
          if insRaises d then { st with skipped := st.skipped + 1 }
          else { st with table := upsert (tid, kg.1.2) d now st.table
                         created := st.created + 1 }

/-- Source: StatsImporter.import_team_stats_from_csv (stats_importer.py
lines 22-72) with both failure paths of the per-group loop modelled. -/
def import_team_stats_from_csv_checked (shortM teamM : List (String × String))
    (hasWin : Bool) (procRaises : List TeamRow → Bool)
    (insRaises : TeamStatsData → Bool) (now : Nat) (rows : List TeamRow)
    (st : TeamImportState) : TeamImportState :=
  (groupBy (fun r => (r.teamName, teamRowSeason r)) rows).foldl
    (team_loop_step_checked shortM teamM hasWin procRaises insRaises now) st

/-- One iteration of the player per-group loop (stats_importer.py lines
97-120) with both failure paths of the source, as for the team loop. -/
def player_loop_step_checked (playerM : List (String × String))
    (procRaises : List PlayerRow → Bool) (insRaises : PlayerStatsData → Bool)
    (now : Nat) (st : PlayerImportState)
    (kg : (String × String × String × String) × List PlayerRow) : PlayerImportState :=
  match lookupNonFalsy playerM (kg.1.1 ++ " " ++ kg.1.2.1) with
  | Option.none => st
  | some pid =>
      match process_player_stats_group_checked procRaises kg.2 pid kg.1.2.2.1 kg.1.2.2.2 with
      | Option.none => st
      | some d =>
          if insRaises d then { st with skipped := st.skipped + 1 }
          else { st with table := upsert (pid, kg.1.2.2.1, kg.1.2.2.2) d now st.table
                         created := st.created + 1 }

/-- Source: StatsImporter.import_player_stats_from_csv (stats_importer.py
lines 74-122) with both failure paths of the per-group loop modelled. -/
def import_player_stats_from_csv_checked (playerM : List (String × String))
    (procRaises : List PlayerRow → Bool) (insRaises : PlayerStatsData → Bool)
    (now : Nat) (rows : List PlayerRow) (st : PlayerImportState) : PlayerImportState :=
  (groupBy (fun r => (r.firstName, r.lastName, playerRowSeason r, r.gameType)) rows).foldl
    (player_loop_step_checked playerM procRaises insRaises now) st

end StatsImporter

/-- The aggregate record built by the duplicated fast/working player
importers: the same fields as PlayerStatsData minus seasonType (these
variants do not disambiguate the season type). -/
structure VariantPlayerStatsData where
  playerId : String
  season : String
  gamesPlayed : Nat
  minutesPerGame : PyFloat
  pointsPerGame : PyFloat
  rebounds : PyFloat
  assists : PyFloat
  steals : PyFloat
  blocks : PyFloat
  turnovers : PyFloat
  fieldGoalPct : PyFloat
  threePointPct : PyFloat
  freeThrowPct : PyFloat
deriving DecidableEq

/-- The projection that forgets the seasonType column of a core aggregate
record, for comparison with the variants' records. -/
def forgetSeasonType (d : PlayerStatsData) : VariantPlayerStatsData :=
  { playerId := d.playerId
    season := d.season
    gamesPlayed := d.gamesPlayed
    minutesPerGame := d.minutesPerGame
    pointsPerGame := d.pointsPerGame
    rebounds := d.rebounds
    assists := d.assists
    steals := d.steals
    blocks := d.blocks
    turnovers := d.turnovers
    fieldGoalPct := d.fieldGoalPct
    threePointPct := d.threePointPct
    freeThrowPct := d.freeThrowPct }

namespace FastPlayerStatsImporter

/-- Source: FastPlayerStatsImporter._safe_float
(src/fast_player_stats_import.py lines 32-37): the Python expression
`float(value) if pd.notna(value) and value != '' else 0.0` inside a
try/except that turns conversion failures into 0.0. -/
def safe_float (value : PyVal) : PyFloat :=
  if !pyIsNa value && !pyEqEmptyStr value then
    match pyFloatConv value with
    | some f => f
    | Option.none => .val 0
  else .val 0

/-- Source: the season column of FastPlayerStatsImporter._process_chunk
(fast_player_stats_import.py lines 70-71): the calendar year of gameDate,
with no playoff adjustment, rendered with the shared season-string idiom. -/
def fastRowSeason (r : PlayerRow) : String :=
  seasonString r.year

/-- Source: FastPlayerStatsImporter._calculate_player_stats
(fast_player_stats_import.py lines 118-158). The wins/losses locals the
source computes from the win column are dropped: they are not part of the
returned record. The plusMinusPoints average is likewise computed and
dropped. -/
def calculate_player_stats (group : List PlayerRow)
    (player_id : String) (season : String) : VariantPlayerStatsData :=
  { playerId := player_id
    season := season
    gamesPlayed := group.length
    minutesPerGame := safe_float (.float (seriesMean (group.map (·.numMinutes))))
    pointsPerGame := safe_float (.float (seriesMean (group.map (·.points))))
    rebounds := safe_float (.float (seriesMean (group.map (·.reboundsTotal))))
    assists := safe_float (.float (seriesMean (group.map (·.assists))))
    steals := safe_float (.float (seriesMean (group.map (·.steals))))
    blocks := safe_float (.float (seriesMean (group.map (·.blocks))))
    turnovers := safe_float (.float (seriesMean (group.map (·.turnovers))))
    fieldGoalPct := safe_float (.float (seriesMean (group.map (·.fieldGoalsPercentage))))
    threePointPct := safe_float (.float (seriesMean (group.map (·.threePointersPercentage))))
    freeThrowPct := safe_float (.float (seriesMean (group.map (·.freeThrowsPercentage)))) }

/-- Source: FastPlayerStatsImporter._process_chunk
(fast_player_stats_import.py lines 67-106): assign the season column,
group by (firstName, lastName, season), skip groups whose player name is
not in the mapping (counting them as skipped), and aggregate each
remaining group. The records listed here are exactly those the batching
machinery forwards to bulk_create_player_stats. -/
def process_chunk (playerM : List (String × String)) (chunk : List PlayerRow) :
    List VariantPlayerStatsData :=
  (groupBy (fun r => (r.firstName, r.lastName, fastRowSeason r)) chunk).filterMap fun kg =>
    match lookupNonFalsy playerM (kg.1.1 ++ " " ++ kg.1.2.1) with
    | Option.none => Option.none
    | some pid => some (calculate_player_stats kg.2 pid kg.1.2.2)

end FastPlayerStatsImporter

namespace WorkingPlayerStatsImporter

/-- Source: WorkingPlayerStatsImporter._safe_float
(src/working_player_stats_import.py lines 32-37); textually identical to
the fast importer's version. -/
def safe_float (value : PyVal) : PyFloat :=
  if !pyIsNa value && !pyEqEmptyStr value then
    match pyFloatConv value with
    | some f => f
    | Option.none => .val 0
  else .val 0

/-- Source: the season column of _process_chunk_working
(working_player_stats_import.py lines 71-72): the calendar year of
gameDate, with no playoff adjustment. -/
def workingRowSeason (r : PlayerRow) : String :=
  seasonString r.year

/-- Source: WorkingPlayerStatsImporter._calculate_player_stats_working
(working_player_stats_import.py lines 149-186). -/
def calculate_player_stats_working (group : List PlayerRow)
    (player_id : String) (season : String) : VariantPlayerStatsData :=
  { playerId := player_id
    season := season
    gamesPlayed := group.length
    minutesPerGame := safe_float (.float (seriesMean (group.map (·.numMinutes))))
    pointsPerGame := safe_float (.float (seriesMean (group.map (·.points))))
    rebounds := safe_float (.float (seriesMean (group.map (·.reboundsTotal))))
    assists := safe_float (.float (seriesMean (group.map (·.assists))))
    steals := safe_float (.float (seriesMean (group.map (·.steals))))
    blocks := safe_float (.float (seriesMean (group.map (·.blocks))))
    turnovers := safe_float (.float (seriesMean (group.map (·.turnovers))))
    fieldGoalPct := safe_float (.float (seriesMean (group.map (·.fieldGoalsPercentage))))
    threePointPct := safe_float (.float (seriesMean (group.map (·.threePointersPercentage))))
    freeThrowPct := safe_float (.float (seriesMean (group.map (·.freeThrowsPercentage)))) }

/-- Source: WorkingPlayerStatsImporter._process_chunk_working
(working_player_stats_import.py lines 68-98): assign the season column,
group by (firstName, lastName, season), skip groups whose player name is
not in the mapping, and aggregate each remaining group; the records listed
here are those handed one by one to _insert_single_player_stats. -/
def process_chunk_working (playerM : List (String × String)) (chunk : List PlayerRow) :
    List VariantPlayerStatsData :=
  (groupBy (fun r => (r.firstName, r.lastName, workingRowSeason r)) chunk).filterMap fun kg =>
    match lookupNonFalsy playerM (kg.1.1 ++ " " ++ kg.1.2.1) with
    | Option.none => Option.none
    | some pid => some (calculate_player_stats_working kg.2 pid kg.1.2.2)

end WorkingPlayerStatsImporter

namespace GameImporter

/-- The fields of a processed game record that the import loop itself
reads: the duplicate key f"{gameDate}_{homeTeamId}_{awayTeamId}" is built
from these three. The remaining fields of the record are written to the
database unread and are immaterial to the loop's control flow. -/
structure GameData where
  gameDate : String
  homeTeamId : String
  awayTeamId : String
deriving DecidableEq

/-- Source: the duplicate key of import_games_from_csv
(game_importer.py lines 34 and 46). -/
def gameKey (g : GameData) : String :=
  g.gameDate ++ "_" ++ g.homeTeamId ++ "_" ++ g.awayTeamId

/-- Counters of the game import loop. -/
structure GameImportCounters where
  created : Nat
  skipped : Nat
deriving DecidableEq

/-- One iteration of the per-row loop of import_games_from_csv
(game_importer.py lines 37-60). `proc` is _process_game_row, which
catches its own exceptions and returns None on any failure; a None row is
counted as skipped. A processed row whose duplicate key is already among
the existing games is counted as skipped. `raises` models which
create_game calls raise a database exception: the exception is caught,
games_skipped is incremented by one, and the loop continues. -/
def game_loop_step (proc : ρ → Option GameData) (existing : List String)
    (raises : GameData → Bool) (st : GameImportCounters) (row : ρ) : GameImportCounters :=
  match proc row with
  | Option.none => { st with skipped := st.skipped + 1 }
  | some gd =>
      if existing.contains (gameKey gd) then { st with skipped := st.skipped + 1 }
      else if raises gd then { st with skipped := st.skipped + 1 }
      else { st with created := st.created + 1 }

/-- Source: GameImporter.import_games_from_csv (game_importer.py lines
22-63): fold the per-row loop over the CSV rows. The set of existing game
keys is computed before the loop and not extended inside it. -/
def import_games_from_csv (proc : ρ → Option GameData) (existing : List String)
    (raises : GameData → Bool) (rows : List ρ) (st : GameImportCounters) : GameImportCounters :=
  rows.foldl (game_loop_step proc existing raises) st

end GameImporter

/-- The five tables touched by DatabaseManager.clear_teams, with rows of
an arbitrary type (their contents are immaterial to the claim). -/
structure Database (α : Type) where
  team_stats : List α
  player_stats : List α
  players : List α
  games : List α
  teams : List α
deriving DecidableEq

namespace DatabaseManager

/-- Outcome of clear_teams: the committed database state, either after a
successful commit or, when a delete raised and the except branch rolled
the transaction back and re-raised, unchanged. -/
inductive ClearResult (α : Type) where
  | ok (db : Database α)
  | raised (db : Database α)
deriving DecidableEq

/-- Source: DatabaseManager.clear_teams (src/data_import/database.py lines
175-190). The five DELETE statements execute in order inside the one open
transaction, and the commit at the end makes them durable; `failAt` says
which statement, if any, raises a database error. On an error the except
branch rolls the transaction back, so the committed state is the original
one, and re-raises. -/
def clear_teams (failAt : Option (Fin 5)) (db : Database α) : ClearResult α :=
  if failAt = some 0 then .raised db else
  let w1 := { db with team_stats := [] }
  if failAt = some 1 then .raised db else
  let w2 := { w1 with player_stats := [] }
  if failAt = some 2 then .raised db else
  let w3 := { w2 with players := [] }
  if failAt = some 3 then .raised db else
  let w4 := { w3 with games := [] }
  if failAt = some 4 then .raised db else
  let w5 := { w4 with teams := [] }
  .ok w5

end DatabaseManager

/-- A concrete TeamStatistics.csv row used to evaluate the embedding on
explicit inputs. -/
def sampleTeamRow (w : Int) : TeamRow :=
  { teamName := "Celtics", year := 2020, month := 1, gameType := "Regular Season",
    win := w, teamScore := .val 100, opponentScore := .val 90,
    fieldGoalsPercentage := .val 0, threePointersPercentage := .val 0,
    freeThrowsPercentage := .val 0, reboundsTotal := .val 0, assists := .val 0,
    turnovers := .val 0, steals := .val 0, blocks := .val 0 }

/-- A concrete PlayerStatistics.csv row for a May 2020 playoff game: the
input on which the duplicated importers disagree with the core importer
about the season label. -/
def mayPlayoffRow : PlayerRow :=
  { firstName := "LeBron", lastName := "James", year := 2020, month := 5,
    gameType := "Playoffs", win := 1, numMinutes := .val 0, points := .val 0,
    reboundsTotal := .val 0, assists := .val 0, steals := .val 0, blocks := .val 0,
    turnovers := .val 0, plusMinusPoints := .val 0, fieldGoalsPercentage := .val 0,
    threePointersPercentage := .val 0, freeThrowsPercentage := .val 0 }

/-- A concrete PlayerStatistics.csv row for a November 2020 regular-season
game. -/
def novemberRegularRow : PlayerRow :=
  { firstName := "LeBron", lastName := "James", year := 2020, month := 11,
    gameType := "Regular Season", win := 1, numMinutes := .val 0, points := .val 0,
    reboundsTotal := .val 0, assists := .val 0, steals := .val 0, blocks := .val 0,
    turnovers := .val 0, plusMinusPoints := .val 0, fieldGoalsPercentage := .val 0,
    threePointersPercentage := .val 0, freeThrowsPercentage := .val 0 }

/-- Nat.toDigitsCore appends its output in front of the accumulator. -/
theorem toDigitsCore_acc (b fuel : Nat) : ∀ (n : Nat) (acc : List Char),
    Nat.toDigitsCore b fuel n acc = Nat.toDigitsCore b fuel n [] ++ acc := by
  induction fuel with
  | zero => intro n acc; simp [Nat.toDigitsCore]
  | succ fuel ih =>
    intro n acc
    unfold Nat.toDigitsCore
    by_cases h : n / b = 0
    · simp [h]
    · simp only [h, if_false]
      rw [ih (n / b) (Nat.digitChar (n % b) :: acc), ih (n / b) [Nat.digitChar (n % b)]]
      simp

/-- Nat.toDigitsCore does not depend on the fuel once the fuel exceeds
the number. -/
theorem toDigitsCore_fuel_irrel (b : Nat) (hb : 2 ≤ b) :
    ∀ (n f1 f2 : Nat), n < f1 → n < f2 →
      Nat.toDigitsCore b f1 n [] = Nat.toDigitsCore b f2 n [] := by
  intro n
  induction n using Nat.strong_induction_on with
  | _ n ih =>
    intro f1 f2 h1 h2
    cases f1 with
    | zero => omega
    | succ f1 =>
      cases f2 with
      | zero => omega
      | succ f2 =>
        unfold Nat.toDigitsCore
        by_cases h : n / b = 0
        · simp [h]
        · simp only [h, if_false]
          have hnpos : 1 ≤ n := by
            by_contra hc
            have : n = 0 := by omega
            subst this
            exact h (Nat.zero_div b)
          have hdiv : n / b < n := Nat.div_lt_self hnpos hb
          rw [toDigitsCore_acc b f1, toDigitsCore_acc b f2,
            ih (n / b) hdiv f1 f2 (by omega) (by omega)]

/-- Peeling the least significant digit off Nat.toDigits. -/
theorem toDigits_step (b n : Nat) (hb : 2 ≤ b) (hn : b ≤ n) :
    Nat.toDigits b n = Nat.toDigits b (n / b) ++ [Nat.digitChar (n % b)] := by
  unfold Nat.toDigits
  show Nat.toDigitsCore b (n + 1) n [] = _
  unfold Nat.toDigitsCore
  have h : ¬(n / b = 0) := by
    intro h0
    have := Nat.div_eq_zero_iff (by omega : 0 < b) |>.mp h0
    omega
  simp only [h, if_false]
  rw [toDigitsCore_acc b n (n / b) [Nat.digitChar (n % b)]]
  congr 1
  have hdiv : n / b < n := Nat.div_lt_self (by omega) hb
  exact toDigitsCore_fuel_irrel b hb (n / b) n (n / b + 1) hdiv (by omega)

/-- A number below the base has a one-character representation. -/
theorem toDigits_of_lt (b n : Nat) (hn : n < b) :
    Nat.toDigits b n = [Nat.digitChar n] := by
  unfold Nat.toDigits Nat.toDigitsCore
  have h : n / b = 0 := Nat.div_eq_of_lt hn
  simp [h, Nat.mod_eq_of_lt hn]

theorem repr_data (n : Nat) : (Nat.repr n).data = Nat.toDigits 10 n := rfl

/-- For every four-digit number, dropping the first two characters of its
decimal representation yields its last two digits. -/
theorem repr_drop_two_of_four_digits (n : Nat) (h1 : 1000 ≤ n) (h2 : n ≤ 9999) :
    (Nat.repr n).drop 2 = lastTwoDigits n := by
  have hdata : ((Nat.repr n).drop 2).data = (lastTwoDigits n).data := by
    rw [String.data_drop]
    have e0 := toDigits_step 10 n (by omega) (by omega)
    have e1 := toDigits_step 10 (n / 10) (by omega) (by omega : 10 ≤ n / 10)
    have e2 := toDigits_step 10 (n / 10 / 10) (by omega) (by omega : 10 ≤ n / 10 / 10)
    have e3 := toDigits_of_lt 10 (n / 10 / 10 / 10) (by omega)
    rw [repr_data, e0, e1, e2, e3]
    unfold lastTwoDigits
    by_cases hr : n % 100 < 10
    · have er : Nat.toDigits 10 (n % 100) = [Nat.digitChar (n % 100)] :=
        toDigits_of_lt 10 (n % 100) hr
      have hz : n / 10 % 10 = 0 := by omega
      have hm : n % 10 = n % 100 := by omega
      simp only [if_pos hr, String.data_append, repr_data, er]
      simp [hz, hm]
      rfl
    · have er : Nat.toDigits 10 (n % 100) =
          Nat.toDigits 10 (n % 100 / 10) ++ [Nat.digitChar (n % 100 % 10)] :=
        toDigits_step 10 (n % 100) (by omega) (by omega)
      have eb : Nat.toDigits 10 (n % 100 / 10) = [Nat.digitChar (n % 100 / 10)] :=
        toDigits_of_lt 10 (n % 100 / 10) (by omega)
      have hz : n / 10 % 10 = n % 100 / 10 := by omega
      have hm : n % 10 = n % 100 % 10 := by omega
      simp only [if_neg hr, String.data_append, repr_data, er, eb]
      simp [hz, hm]
  exact congrArg String.mk hdata

/-- For every number in the range of years representable by pandas
timestamps (seasons 1677 to 2262, successor years up to 2263), dropping
the first two characters of its decimal representation yields its last
two digits. -/
theorem repr_drop_two_eq_lastTwoDigits (n : Nat) (h1 : 1677 ≤ n) (h2 : n ≤ 2263) :
    (Nat.repr n).drop 2 = lastTwoDigits n :=
  repr_drop_two_of_four_digits n (by omega) (by omega)

theorem applyUpserts_nil [DecidableEq κ] (now : Nat) (t : Table κ β) :
    applyUpserts ([] : List (κ × β)) now t = t := rfl

theorem applyUpserts_cons [DecidableEq κ] (u : κ × β) (us : List (κ × β)) (now : Nat)
    (t : Table κ β) :
    applyUpserts (u :: us) now t = applyUpserts us now (upsert u.1 u.2 now t) := rfl

/-- Reading a key after an upsert: the upserted data under the upserted
key, the previous data elsewhere. -/
theorem dataAt_upsert [DecidableEq κ] (k k' : κ) (d : β) (now : Nat) (t : Table κ β) :
    dataAt k (upsert k' d now t) = if k = k' then some d else dataAt k t := by
  induction t with
  | nil => simp [upsert, dataAt, eq_comm]
  | cons p t ih =>
    obtain ⟨k2, e⟩ := p
    by_cases h1 : k' = k2
    · subst h1
      by_cases h2 : k = k'
      · subst h2; simp [upsert, dataAt]
      · simp [upsert, dataAt, h2]
    · by_cases h2 : k = k2
      · subst h2
        have hne : ¬k = k' := fun he => h1 (by rw [← he])
        simp [upsert, dataAt, h1, hne]
      · simp [upsert, dataAt, h1, h2, ih]

/-- Reading a key after a sequence of upserts: the last write to that key,
or the previous data if the sequence never writes it. -/
theorem dataAt_applyUpserts [DecidableEq κ] (k : κ) (us : List (κ × β)) (now : Nat)
    (t : Table κ β) :
    dataAt k (applyUpserts us now t) =
      match lastWrite k us with
      | some d => some d
      | Option.none => dataAt k t := by
  induction us generalizing t with
  | nil => simp [applyUpserts, lastWrite]
  | cons u us ih =>
    rw [applyUpserts_cons, ih]
    cases h : lastWrite k us with
    | some d => simp [lastWrite, h]
    | none =>
      rw [dataAt_upsert]
      by_cases h2 : u.1 = k
      · simp [lastWrite, h, h2]
      · have h2' : ¬k = u.1 := fun he => h2 (by rw [he])
        simp [lastWrite, h, h2, h2']

/-- Re-applying the same upsert sequence leaves every key's data columns
unchanged (only timestamps can differ, and they are outside `dataAt`). -/
theorem dataAt_applyUpserts_twice [DecidableEq κ] (k : κ) (us : List (κ × β)) (n1 n2 : Nat)
    (t : Table κ β) :
    dataAt k (applyUpserts us n2 (applyUpserts us n1 t)) =
      dataAt k (applyUpserts us n1 t) := by
  rw [dataAt_applyUpserts]
  cases h : lastWrite k us with
  | none => simp
  | some d => rw [dataAt_applyUpserts, h]

namespace StatsImporter

/-- The table computed by the team import loop is the upsert sequence
`teamUpserts` applied to the initial table (the loop additionally
maintains the two counters). -/
theorem foldl_team_loop_table (shortM teamM : List (String × String)) (hasWin : Bool)
    (raises : TeamStatsData → Bool) (now : Nat)
    (gs : List ((String × String) × List TeamRow)) (st : TeamImportState) :
    (gs.foldl (team_loop_step shortM teamM hasWin raises now) st).table =
      applyUpserts (gs.filterMap fun kg =>
        match resolveTeamId shortM teamM kg.1.1 with
        | Option.none => Option.none
        | some tid =>
            let d := process_team_stats_group hasWin kg.2 tid kg.1.2
            if raises d then Option.none else some ((tid, kg.1.2), d)) now st.table := by
  induction gs generalizing st with
  | nil => simp [applyUpserts]
  | cons g gs ih =>
    rw [List.foldl_cons, List.filterMap_cons, ih]
    cases h : resolveTeamId shortM teamM g.1.1 with
    | none => simp [team_loop_step, h]
    | some tid =>
      by_cases hr : raises (process_team_stats_group hasWin g.2 tid g.1.2)
      · simp [team_loop_step, h, hr]
      · simp [team_loop_step, h, hr, applyUpserts_cons]

/-- The table written by import_team_stats_from_csv is the `teamUpserts`
sequence applied to the initial table. -/
theorem import_team_stats_table (shortM teamM : List (String × String)) (hasWin : Bool)
    (raises : TeamStatsData → Bool) (now : Nat) (rows : List TeamRow)
    (st : TeamImportState) :
    (import_team_stats_from_csv shortM teamM hasWin raises now rows st).table =
      applyUpserts (teamUpserts shortM teamM hasWin raises rows) now st.table := by
  unfold import_team_stats_from_csv teamUpserts
  exact foldl_team_loop_table shortM teamM hasWin raises now _ st

/-- The table computed by the player import loop is the upsert sequence
`playerUpserts` applied to the initial table. -/
theorem foldl_player_loop_table (playerM : List (String × String))
    (raises : PlayerStatsData → Bool) (now : Nat)
    (gs : List ((String × String × String × String) × List PlayerRow))
    (st : PlayerImportState) :
    (gs.foldl (player_loop_step playerM raises now) st).table =
      applyUpserts (gs.filterMap fun kg =>
        match lookupNonFalsy playerM (kg.1.1 ++ " " ++ kg.1.2.1) with
        | Option.none => Option.none
        | some pid =>
            let d := process_player_stats_group kg.2 pid kg.1.2.2.1 kg.1.2.2.2
            if raises d then Option.none else some ((pid, kg.1.2.2.1, kg.1.2.2.2), d)) now st.table := by
  induction gs generalizing st with
  | nil => simp [applyUpserts]
  | cons g gs ih =>
    rw [List.foldl_cons, List.filterMap_cons, ih]
    cases h : lookupNonFalsy playerM (g.1.1 ++ " " ++ g.1.2.1) with
    | none => simp [player_loop_step, h]
    | some pid =>
      by_cases hr : raises (process_player_stats_group g.2 pid g.1.2.2.1 g.1.2.2.2)
      · simp [player_loop_step, h, hr]
      · simp [player_loop_step, h, hr, applyUpserts_cons]

/-- The table written by import_player_stats_from_csv is the
`playerUpserts` sequence applied to the initial table. -/
theorem import_player_stats_table (playerM : List (String × String))
    (raises : PlayerStatsData → Bool) (now : Nat) (rows : List PlayerRow)
    (st : PlayerImportState) :
    (import_player_stats_from_csv playerM raises now rows st).table =
      applyUpserts (playerUpserts playerM raises rows) now st.table := by
  unfold import_player_stats_from_csv playerUpserts
  exact foldl_player_loop_table playerM raises now _ st

end StatsImporter

/-- C1: the statistics import is idempotent. For every CSV input and
every database state, running import_team_stats_from_csv (resp.
import_player_stats_from_csv) a second time on the same CSV leaves the
contents of the team_stats (resp. player_stats) table unchanged in every
column except the createdAt/updatedAt timestamps (which lie outside
`dataAt`): the ON CONFLICT DO UPDATE upsert re-writes the same aggregate
values under the same key. -/
theorem C1_stats_import_idempotent
    (shortM teamM playerM : List (String × String)) (hasWin : Bool)
    (raisesT : TeamStatsData → Bool) (raisesP : PlayerStatsData → Bool)
    (teamRows : List TeamRow) (playerRows : List PlayerRow)
    (stT : StatsImporter.TeamImportState) (stP : StatsImporter.PlayerImportState)
    (n1 n2 : Nat) (kT : String × String) (kP : String × String × String) :
    dataAt kT (StatsImporter.import_team_stats_from_csv shortM teamM hasWin raisesT n2 teamRows
        (StatsImporter.import_team_stats_from_csv shortM teamM hasWin raisesT n1 teamRows stT)).table =
      dataAt kT (StatsImporter.import_team_stats_from_csv shortM teamM hasWin raisesT n1 teamRows stT).table ∧
    dataAt kP (StatsImporter.import_player_stats_from_csv playerM raisesP n2 playerRows
        (StatsImporter.import_player_stats_from_csv playerM raisesP n1 playerRows stP)).table =
      dataAt kP (StatsImporter.import_player_stats_from_csv playerM raisesP n1 playerRows stP).table := by
  constructor
  · simp only [StatsImporter.import_team_stats_table]
    exact dataAt_applyUpserts_twice kT _ n1 n2 stT.table
  · simp only [StatsImporter.import_player_stats_table]
    exact dataAt_applyUpserts_twice kP _ n1 n2 stP.table

/-- C3: for every record, the stats importers assign
season_year = year - 1 exactly when gameType is "Playoffs" and the month
lies between 4 and 6 inclusive, and season_year = year otherwise; the
season label is str(season_year) + "-" + the last two digits of
season_year + 1 (for every year pandas timestamps can represent). -/
theorem C3_season_year_boundary (gameType : String) (year month : Nat)
    (h1 : 1677 ≤ year) (h2 : year ≤ 2262) :
    StatsImporter.seasonYearOf gameType year month =
      (if gameType = "Playoffs" ∧ 4 ≤ month ∧ month ≤ 6 then year - 1 else year) ∧
    seasonString (StatsImporter.seasonYearOf gameType year month) =
      Nat.repr (StatsImporter.seasonYearOf gameType year month) ++ "-" ++
        lastTwoDigits (StatsImporter.seasonYearOf gameType year month + 1) := by
  constructor
  · unfold StatsImporter.seasonYearOf
    by_cases hgt : gameType = "Playoffs" <;> by_cases hm4 : 4 ≤ month <;>
      by_cases hm6 : month ≤ 6 <;> simp [hgt, hm4, hm6]
  · have hb : 1677 ≤ StatsImporter.seasonYearOf gameType year month + 1 ∧
        StatsImporter.seasonYearOf gameType year month + 1 ≤ 2263 := by
      unfold StatsImporter.seasonYearOf
      split <;> omega
    unfold seasonString
    rw [repr_drop_two_eq_lastTwoDigits _ hb.1 hb.2]

/-- C3 witness: the season-boundary theorem evaluated at a May 2020
playoff record. -/
theorem C3_season_year_boundary_witness :
    (StatsImporter.seasonYearOf "Playoffs" 2020 5 =
      (if ("Playoffs" : String) = "Playoffs" ∧ 4 ≤ 5 ∧ 5 ≤ 6 then 2020 - 1 else 2020) ∧
    seasonString (StatsImporter.seasonYearOf "Playoffs" 2020 5) =
      Nat.repr (StatsImporter.seasonYearOf "Playoffs" 2020 5) ++ "-" ++
        lastTwoDigits (StatsImporter.seasonYearOf "Playoffs" 2020 5 + 1)) ∧
    seasonString (StatsImporter.seasonYearOf "Playoffs" 2020 5) = "2019-20" :=
  ⟨C3_season_year_boundary "Playoffs" 2020 5 (by decide) (by decide), by decide⟩

/-- C4 counterexample: _extract_season receives strptime-parsed dates,
whose years range over 1 to 9999, and the claimed last-two-digits reading
of the str(...)[2:] slice fails outside four-digit slices: at October
9999 the code returns "9999-000" (the slice of str(10000)), not
"9999-00", and at March 500 it returns "499-0" (the slice of str(500)),
not "499-00". -/
theorem C4_counterexample_extreme_years :
    GameImporter.extract_season 9999 10 = "9999-000" ∧
    GameImporter.extract_season 9999 10 ≠
      Nat.repr 9999 ++ "-" ++ lastTwoDigits (9999 + 1) ∧
    GameImporter.extract_season 500 3 = "499-0" ∧
    GameImporter.extract_season 500 3 ≠
      Nat.repr (500 - 1) ++ "-" ++ lastTwoDigits 500 := by
  refine ⟨by decide, by decide, by decide, by decide⟩

/-- C4 amended: _extract_season returns str(year) + "-" + the last two
digits of year + 1 when month >= 10, and str(year - 1) + "-" + the last
two digits of year when month < 10, exactly on the dates for which the
sliced number has four digits: years 999 to 9998 in the first branch and
1000 to 9999 in the second (outside these, str(...)[2:] is not the last
two digits). -/
theorem C4_extract_season_amended (year month : Nat) :
    (10 ≤ month → 999 ≤ year → year ≤ 9998 →
      GameImporter.extract_season year month =
        Nat.repr year ++ "-" ++ lastTwoDigits (year + 1)) ∧
    (month < 10 → 1000 ≤ year → year ≤ 9999 →
      GameImporter.extract_season year month =
        Nat.repr (year - 1) ++ "-" ++ lastTwoDigits year) := by
  constructor
  · intro hm hy1 hy2
    unfold GameImporter.extract_season
    rw [if_pos hm, repr_drop_two_of_four_digits (year + 1) (by omega) (by omega)]
  · intro hm hy1 hy2
    unfold GameImporter.extract_season
    rw [if_neg (by omega), repr_drop_two_of_four_digits year (by omega) (by omega)]

/-- C4 witness: the amended season-inference theorem evaluated at
November 2020 and at March 2020. -/
theorem C4_extract_season_amended_witness :
    GameImporter.extract_season 2020 11 = Nat.repr 2020 ++ "-" ++ lastTwoDigits 2021 ∧
    GameImporter.extract_season 2020 3 = Nat.repr 2019 ++ "-" ++ lastTwoDigits 2020 :=
  ⟨(C4_extract_season_amended 2020 11).1 (by decide) (by decide) (by decide),
   (C4_extract_season_amended 2020 3).2 (by decide) (by decide) (by decide)⟩

/-- C8: clear_teams deletes from team_stats, player_stats, players, games
and teams in that order inside one transaction; when no delete raises the
committed result has all five tables empty, and when the delete at any of
the five positions raises, the transaction is rolled back (the committed
state is unchanged) and the exception is re-raised. -/
theorem C8_clear_teams_atomic {α : Type} (db : Database α) :
    DatabaseManager.clear_teams Option.none db =
      DatabaseManager.ClearResult.ok
        { team_stats := [], player_stats := [], players := [], games := [], teams := [] } ∧
    ∀ i : Fin 5, DatabaseManager.clear_teams (some i) db =
      DatabaseManager.ClearResult.raised db := by
  constructor
  · simp [DatabaseManager.clear_teams]
  · intro i
    fin_cases i <;> simp [DatabaseManager.clear_teams]

/-- C10: every team-stats record built by _process_team_stats_group
satisfies wins + losses = gamesPlayed, with gamesPlayed the number of
rows of the group and (when the win column is present) wins the number
of rows whose win column equals 1, hence wins <= gamesPlayed. -/
theorem C10_team_stats_win_invariant (hasWin : Bool) (group : List TeamRow)
    (team_id season : String) (h : hasWin = true) :
    (StatsImporter.process_team_stats_group hasWin group team_id season).wins +
        (StatsImporter.process_team_stats_group hasWin group team_id season).losses =
      (StatsImporter.process_team_stats_group hasWin group team_id season).gamesPlayed ∧
    (StatsImporter.process_team_stats_group hasWin group team_id season).gamesPlayed =
      group.length ∧
    (StatsImporter.process_team_stats_group hasWin group team_id season).wins =
      (group.filter fun r => decide (r.win = 1)).length ∧
    (StatsImporter.process_team_stats_group hasWin group team_id season).wins ≤
      (StatsImporter.process_team_stats_group hasWin group team_id season).gamesPlayed := by
  subst h
  have hle : (group.filter fun r => decide (r.win = 1)).length ≤ group.length :=
    List.length_filter_le _ _
  refine ⟨?_, rfl, rfl, hle⟩
  simp only [StatsImporter.process_team_stats_group, if_true]
  omega

/-- C10 witness: the invariant evaluated on a concrete three-row group
with two wins. -/
theorem C10_team_stats_win_invariant_witness :
    (StatsImporter.process_team_stats_group true [sampleTeamRow 1, sampleTeamRow 0, sampleTeamRow 1]
        "T" "2019-20").wins +
      (StatsImporter.process_team_stats_group true [sampleTeamRow 1, sampleTeamRow 0, sampleTeamRow 1]
        "T" "2019-20").losses =
      (StatsImporter.process_team_stats_group true [sampleTeamRow 1, sampleTeamRow 0, sampleTeamRow 1]
        "T" "2019-20").gamesPlayed ∧
    (StatsImporter.process_team_stats_group true [sampleTeamRow 1, sampleTeamRow 0, sampleTeamRow 1]
        "T" "2019-20").gamesPlayed = [sampleTeamRow 1, sampleTeamRow 0, sampleTeamRow 1].length ∧
    (StatsImporter.process_team_stats_group true [sampleTeamRow 1, sampleTeamRow 0, sampleTeamRow 1]
        "T" "2019-20").wins =
      ([sampleTeamRow 1, sampleTeamRow 0, sampleTeamRow 1].filter fun r => decide (r.win = 1)).length ∧
    (StatsImporter.process_team_stats_group true [sampleTeamRow 1, sampleTeamRow 0, sampleTeamRow 1]
        "T" "2019-20").wins ≤
      (StatsImporter.process_team_stats_group true [sampleTeamRow 1, sampleTeamRow 0, sampleTeamRow 1]
        "T" "2019-20").gamesPlayed :=
  C10_team_stats_win_invariant true [sampleTeamRow 1, sampleTeamRow 0, sampleTeamRow 1]
    "T" "2019-20" rfl

/-- C5: player aggregates are grouped and upserted under the three-part
key (playerId, season, seasonType): every record the player import
upserts carries exactly its key's playerId, season and seasonType;
upserting a Playoffs aggregate never modifies the Regular Season row of
that player and season, and vice versa; and after importing both, the two
season types are stored as distinct rows. -/
theorem C5_playoffs_regular_distinct_rows
    (pid season : String) (dPlay dReg : PlayerStatsData)
    (t : Table (String × String × String) PlayerStatsData) (n1 n2 : Nat)
    (playerM : List (String × String)) (raises : PlayerStatsData → Bool)
    (rows : List PlayerRow) :
    dataAt (pid, season, "Regular Season") (upsert (pid, season, "Playoffs") dPlay n1 t) =
      dataAt (pid, season, "Regular Season") t ∧
    dataAt (pid, season, "Playoffs") (upsert (pid, season, "Regular Season") dReg n2 t) =
      dataAt (pid, season, "Playoffs") t ∧
    dataAt (pid, season, "Playoffs")
        (upsert (pid, season, "Regular Season") dReg n2
          (upsert (pid, season, "Playoffs") dPlay n1 t)) = some dPlay ∧
    dataAt (pid, season, "Regular Season")
        (upsert (pid, season, "Regular Season") dReg n2
          (upsert (pid, season, "Playoffs") dPlay n1 t)) = some dReg ∧
    (StatsImporter.playerUpserts playerM raises rows).all
        (fun u => u.2.playerId == u.1.1 && u.2.season == u.1.2.1 &&
          u.2.seasonType == u.1.2.2) = true := by
  have hne : ((pid, season, "Regular Season") : String × String × String) ≠
      (pid, season, "Playoffs") := by
    intro he
    rw [Prod.mk.injEq, Prod.mk.injEq] at he
    exact absurd he.2.2 (by decide)
  have hne' : ((pid, season, "Playoffs") : String × String × String) ≠
      (pid, season, "Regular Season") := fun he => hne he.symm
  refine ⟨?_, ?_, ?_, ?_, ?_⟩
  · rw [dataAt_upsert, if_neg hne]
  · rw [dataAt_upsert, if_neg hne']
  · rw [dataAt_upsert, if_neg hne', dataAt_upsert, if_pos rfl]
  · rw [dataAt_upsert, if_pos rfl]
  · rw [List.all_eq_true]
    intro u hu
    simp only [StatsImporter.playerUpserts, List.mem_filterMap] at hu
    obtain ⟨kg, _, heq⟩ := hu
    cases hl : lookupNonFalsy playerM (kg.1.1 ++ " " ++ kg.1.2.1) with
    | none => rw [hl] at heq; simp at heq
    | some pid' =>
        rw [hl] at heq
        by_cases hr : raises
            (StatsImporter.process_player_stats_group kg.2 pid' kg.1.2.2.1 kg.1.2.2.2)
        · simp [hr] at heq
        · simp only [hr, if_false] at heq
          have hu' := Option.some.inj heq
          subst hu'
          simp [StatsImporter.process_player_stats_group]

/-- With a processing oracle that never raises, the checked team loop
step is the loop step of the idempotency development. -/
theorem team_loop_step_checked_total (shortM teamM : List (String × String))
    (hasWin : Bool) (insRaises : TeamStatsData → Bool) (now : Nat) :
    StatsImporter.team_loop_step_checked shortM teamM hasWin (fun _ => false)
        insRaises now =
      StatsImporter.team_loop_step shortM teamM hasWin insRaises now := by
  funext st kg
  cases h : StatsImporter.resolveTeamId shortM teamM kg.1.1 with
  | none =>
      simp [StatsImporter.team_loop_step_checked, StatsImporter.team_loop_step, h]
  | some tid =>
      simp [StatsImporter.team_loop_step_checked, StatsImporter.team_loop_step,
        StatsImporter.process_team_stats_group_checked, h]

/-- With a processing oracle that never raises, the checked player loop
step is the loop step of the idempotency development. -/
theorem player_loop_step_checked_total (playerM : List (String × String))
    (insRaises : PlayerStatsData → Bool) (now : Nat) :
    StatsImporter.player_loop_step_checked playerM (fun _ => false) insRaises now =
      StatsImporter.player_loop_step playerM insRaises now := by
  funext st kg
  cases h : lookupNonFalsy playerM (kg.1.1 ++ " " ++ kg.1.2.1) with
  | none =>
      simp [StatsImporter.player_loop_step_checked, StatsImporter.player_loop_step, h]
  | some pid =>
      simp [StatsImporter.player_loop_step_checked, StatsImporter.player_loop_step,
        StatsImporter.process_player_stats_group_checked, h]

/-- C7 counterexample: an exception raised while processing a group does
not increment the skipped counter. On a one-group import whose
aggregation raises (the exception is swallowed inside
_process_team_stats_group, which returns None, and the loop's
`if not stats_data: continue` moves on), the final state equals the
initial one: stats_skipped is still 0 where the claim requires 1. -/
theorem C7_counterexample_processing_exception :
    StatsImporter.import_team_stats_from_csv_checked [("Celtics", "T1")] [] true
        (fun _ => true) (fun _ => false) 0 [sampleTeamRow 1] ⟨[], 0, 0⟩ =
      ⟨[], 0, 0⟩ := by
  decide

/-- C7 amended: an exception raised while inserting a group (resp.
anywhere in the body of GameImporter's per-row loop) is caught, the
skipped counter is incremented by exactly one, every remaining group
(resp. row) is still processed, and the import returns normally; but an
exception raised while processing a group in StatsImporter is caught
inside _process_*_stats_group, which returns None, and the loop then
continues without touching the counters or the table. -/
theorem C7_insert_exception_skips_processing_exception_continues
    (shortM teamM : List (String × String)) (hasWin : Bool)
    (procT1 procT2 : List TeamRow → Bool) (insT1 insT2 : TeamStatsData → Bool)
    (now : Nat) (rows : List TeamRow)
    (pre post : List ((String × String) × List TeamRow))
    (g : (String × String) × List TeamRow) (st : StatsImporter.TeamImportState)
    (tid : String)
    (hg : groupBy (fun r => (r.teamName, StatsImporter.teamRowSeason r)) rows =
      pre ++ g :: post)
    (hfound : StatsImporter.resolveTeamId shortM teamM g.1.1 = some tid)
    (hproc1 : procT1 g.2 = false)
    (hins1 : insT1 (StatsImporter.process_team_stats_group hasWin g.2 tid g.1.2) = true)
    (hproc2 : procT2 g.2 = true)
    (playerM : List (String × String))
    (procP1 procP2 : List PlayerRow → Bool) (insP1 insP2 : PlayerStatsData → Bool)
    (rowsP : List PlayerRow)
    (preP postP : List ((String × String × String × String) × List PlayerRow))
    (gp : (String × String × String × String) × List PlayerRow)
    (stP : StatsImporter.PlayerImportState) (pid : String)
    (hgP : groupBy (fun r => (r.firstName, r.lastName, StatsImporter.playerRowSeason r,
      r.gameType)) rowsP = preP ++ gp :: postP)
    (hfoundP : lookupNonFalsy playerM (gp.1.1 ++ " " ++ gp.1.2.1) = some pid)
    (hprocP1 : procP1 gp.2 = false)
    (hinsP1 : insP1 (StatsImporter.process_player_stats_group gp.2 pid gp.1.2.2.1
      gp.1.2.2.2) = true)
    (hprocP2 : procP2 gp.2 = true)
    {ρ : Type} (proc : ρ → Option GameImporter.GameData) (existing : List String)
    (raisesG : GameImporter.GameData → Bool) (preR postR : List ρ) (r : ρ)
    (gd : GameImporter.GameData) (stG : GameImporter.GameImportCounters)
    (hproc : proc r = some gd)
    (hraiseG : raisesG gd = true) :
    StatsImporter.import_team_stats_from_csv_checked shortM teamM hasWin procT1 insT1
        now rows st =
      post.foldl (StatsImporter.team_loop_step_checked shortM teamM hasWin procT1 insT1 now)
        (let st1 := pre.foldl
          (StatsImporter.team_loop_step_checked shortM teamM hasWin procT1 insT1 now) st
         { st1 with skipped := st1.skipped + 1 }) ∧
    StatsImporter.import_team_stats_from_csv_checked shortM teamM hasWin procT2 insT2
        now rows st =
      post.foldl (StatsImporter.team_loop_step_checked shortM teamM hasWin procT2 insT2 now)
        (pre.foldl
          (StatsImporter.team_loop_step_checked shortM teamM hasWin procT2 insT2 now) st) ∧
    StatsImporter.import_player_stats_from_csv_checked playerM procP1 insP1
        now rowsP stP =
      postP.foldl (StatsImporter.player_loop_step_checked playerM procP1 insP1 now)
        (let st1 := preP.foldl
          (StatsImporter.player_loop_step_checked playerM procP1 insP1 now) stP
         { st1 with skipped := st1.skipped + 1 }) ∧
    StatsImporter.import_player_stats_from_csv_checked playerM procP2 insP2
        now rowsP stP =
      postP.foldl (StatsImporter.player_loop_step_checked playerM procP2 insP2 now)
        (preP.foldl
          (StatsImporter.player_loop_step_checked playerM procP2 insP2 now) stP) ∧
    GameImporter.import_games_from_csv proc existing raisesG (preR ++ r :: postR) stG =
      GameImporter.import_games_from_csv proc existing raisesG postR
        (let s1 := GameImporter.import_games_from_csv proc existing raisesG preR stG
         { s1 with skipped := s1.skipped + 1 }) := by
  refine ⟨?_, ?_, ?_, ?_, ?_⟩
  · unfold StatsImporter.import_team_stats_from_csv_checked
    rw [hg, List.foldl_append, List.foldl_cons]
    congr 1
    simp [StatsImporter.team_loop_step_checked,
      StatsImporter.process_team_stats_group_checked, hfound, hproc1, hins1]
  · unfold StatsImporter.import_team_stats_from_csv_checked
    rw [hg, List.foldl_append, List.foldl_cons]
    congr 1
    simp [StatsImporter.team_loop_step_checked,
      StatsImporter.process_team_stats_group_checked, hfound, hproc2]
  · unfold StatsImporter.import_player_stats_from_csv_checked
    rw [hgP, List.foldl_append, List.foldl_cons]
    congr 1
    simp [StatsImporter.player_loop_step_checked,
      StatsImporter.process_player_stats_group_checked, hfoundP, hprocP1, hinsP1]
  · unfold StatsImporter.import_player_stats_from_csv_checked
    rw [hgP, List.foldl_append, List.foldl_cons]
    congr 1
    simp [StatsImporter.player_loop_step_checked,
      StatsImporter.process_player_stats_group_checked, hfoundP, hprocP2]
  · unfold GameImporter.import_games_from_csv
    rw [List.foldl_append, List.foldl_cons]
    congr 1
    simp [GameImporter.game_loop_step, hproc, hraiseG]

/-- On float arguments (the only values the aggregation helpers feed it),
the exception-faithful _safe_float model agrees with the total one. -/
theorem safe_float_checked_on_floats (m : PyFloat) :
    StatsImporter.safe_float_checked (.float m) =
      FloatResult.ok (StatsImporter.safe_float (.float m)).toExt := by
  cases m <;> rfl

set_option maxRecDepth 10000 in
/-- C9 counterexample: _safe_float is not total. float(10^400) raises
OverflowError, which the body's except (ValueError, TypeError) does not
catch, so the exception propagates out of _safe_float instead of a float
being returned. -/
theorem C9_counterexample_int_overflow :
    StatsImporter.safe_float_checked (PyVal.int (10 ^ 400)) =
      FloatResult.raised PyExn.overflowError := by decide

/-- C9 amended: _safe_float returns a float for every input except the
huge integers whose float() conversion raises OverflowError, which
propagates uncaught; it returns 0.0 when the input is NaN, None, the
empty string, or float() raises ValueError or TypeError, and float(value)
otherwise. -/
theorem C9_safe_float_amended (v : PyVal) :
    (pyIsNa v = true ∨ v = PyVal.none ∨ v = PyVal.str "" →
      StatsImporter.safe_float_checked v = FloatResult.ok (PyFloatExt.val 0)) ∧
    (pyFloatConvChecked v = FloatResult.raised PyExn.valueError →
      StatsImporter.safe_float_checked v = FloatResult.ok (PyFloatExt.val 0)) ∧
    (pyFloatConvChecked v = FloatResult.raised PyExn.typeError →
      StatsImporter.safe_float_checked v = FloatResult.ok (PyFloatExt.val 0)) ∧
    (∀ f, (pyIsNa v || pyEqEmptyStr v || v == PyVal.none) = false →
      pyFloatConvChecked v = FloatResult.ok f →
      StatsImporter.safe_float_checked v = FloatResult.ok f) ∧
    ((pyIsNa v || pyEqEmptyStr v || v == PyVal.none) = false →
      pyFloatConvChecked v = FloatResult.raised PyExn.overflowError →
      StatsImporter.safe_float_checked v = FloatResult.raised PyExn.overflowError) := by
  refine ⟨?_, ?_, ?_, ?_, ?_⟩
  · intro h
    unfold StatsImporter.safe_float_checked
    rcases h with h | h | h
    · simp [h]
    · subst h; simp
    · subst h; simp [pyIsNa, pyEqEmptyStr]
  · intro h
    unfold StatsImporter.safe_float_checked
    by_cases hc : (pyIsNa v || pyEqEmptyStr v || v == PyVal.none) = true
    · simp [hc]
    · simp only [Bool.not_eq_true] at hc
      simp [hc, h]
  · intro h
    unfold StatsImporter.safe_float_checked
    by_cases hc : (pyIsNa v || pyEqEmptyStr v || v == PyVal.none) = true
    · simp [hc]
    · simp only [Bool.not_eq_true] at hc
      simp [hc, h]
  · intro f hguard hconv
    unfold StatsImporter.safe_float_checked
    simp [hguard, hconv]
  · intro hguard hconv
    unfold StatsImporter.safe_float_checked
    simp [hguard, hconv]

/-- C9 witness: the amended theorem evaluated at an unparsable string, a
finite float, and the "inf" literal the extended parser accepts. -/
theorem C9_safe_float_amended_witness :
    StatsImporter.safe_float_checked (PyVal.str "abc") =
      FloatResult.ok (PyFloatExt.val 0) ∧
    StatsImporter.safe_float_checked (PyVal.float (PyFloat.val 1)) =
      FloatResult.ok (PyFloatExt.val 1) ∧
    StatsImporter.safe_float_checked (PyVal.str "inf") =
      FloatResult.ok (PyFloatExt.inf false) :=
  ⟨(C9_safe_float_amended (PyVal.str "abc")).2.1 (by decide),
   (C9_safe_float_amended (PyVal.float (PyFloat.val 1))).2.2.2.1 (PyFloatExt.val 1)
     rfl rfl,
   (C9_safe_float_amended (PyVal.str "inf")).2.2.2.1 (PyFloatExt.inf false)
     (by decide) (by decide)⟩

/-- A falsy or NA value short-circuits _get_season_type to the default. -/
theorem get_season_type_of_falsy (v : PyVal)
    (h : pyTruthy v = false ∨ pyIsNa v = true) :
    GameImporter.get_season_type v = "Regular Season" := by
  unfold GameImporter.get_season_type
  rcases h with h | h <;> simp [h]

/-- On a truthy non-NA value, _get_season_type is the substring chain on
the stripped lowercased string form of the value. -/
theorem get_season_type_of_truthy (v : PyVal)
    (ht : pyTruthy v = true) (hna : pyIsNa v = false) :
    GameImporter.get_season_type v =
      (if strContainsSub (normStripLower (pyStr v)) "playoff" then "Playoffs"
       else if strContainsSub (normStripLower (pyStr v)) "preseason" then "Preseason"
       else "Regular Season") := by
  unfold GameImporter.get_season_type
  simp [ht, hna]

/-- The string form of a falsy or NA scalar contains neither "playoff"
nor "preseason" (falsy numbers are zero, the falsy string is empty). -/
theorem falsy_no_season_substring (v : PyVal)
    (h : pyTruthy v = false ∨ pyIsNa v = true) :
    strContainsSub (normStripLower (pyStr v)) "playoff" = false ∧
    strContainsSub (normStripLower (pyStr v)) "preseason" = false := by
  cases v with
  | none => exact ⟨by decide, by decide⟩
  | float f =>
      cases f with
      | nan => exact ⟨by decide, by decide⟩
      | val q =>
          rcases h with h | h
          · have hq : q = 0 := by simpa [pyTruthy] using h
            subst hq
            exact ⟨by decide, by decide⟩
          · simp [pyIsNa] at h
  | int n =>
      rcases h with h | h
      · have hn : n = 0 := by simpa [pyTruthy] using h
        subst hn
        exact ⟨by decide, by decide⟩
      · simp [pyIsNa] at h
  | str s =>
      rcases h with h | h
      · have hs : s = "" := by simpa [pyTruthy] using h
        subst hs
        exact ⟨by decide, by decide⟩
      · simp [pyIsNa] at h
  | bool b =>
      rcases h with h | h
      · have hb : b = false := by simpa [pyTruthy] using h
        subst hb
        exact ⟨by decide, by decide⟩
      · simp [pyIsNa] at h

/-- C6: _get_season_type is total with the three-value codomain
Regular Season / Playoffs / Preseason; it returns Playoffs exactly when
the lowercased stripped string form of the input contains "playoff",
Preseason exactly when it contains "preseason" but not "playoff", and
Regular Season in every other case, including None, NaN and the empty
string. -/
theorem C6_get_season_type_three_valued (v : PyVal) :
    (GameImporter.get_season_type v = "Regular Season" ∨
     GameImporter.get_season_type v = "Playoffs" ∨
     GameImporter.get_season_type v = "Preseason") ∧
    (GameImporter.get_season_type v = "Playoffs" ↔
      strContainsSub (normStripLower (pyStr v)) "playoff" = true) ∧
    (GameImporter.get_season_type v = "Preseason" ↔
      (strContainsSub (normStripLower (pyStr v)) "preseason" = true ∧
       strContainsSub (normStripLower (pyStr v)) "playoff" = false)) ∧
    GameImporter.get_season_type PyVal.none = "Regular Season" ∧
    GameImporter.get_season_type (PyVal.float PyFloat.nan) = "Regular Season" ∧
    GameImporter.get_season_type (PyVal.str "") = "Regular Season" := by
  by_cases hcase : pyTruthy v = true ∧ pyIsNa v = false
  · obtain ⟨ht, hna⟩ := hcase
    rw [get_season_type_of_truthy v ht hna]
    cases hp : strContainsSub (normStripLower (pyStr v)) "playoff" <;>
      cases hpre : strContainsSub (normStripLower (pyStr v)) "preseason" <;>
        simp [hp, hpre] <;> decide
  · have h' : pyTruthy v = false ∨ pyIsNa v = true := by
      cases htv : pyTruthy v with
      | false => exact Or.inl rfl
      | true =>
          cases hnav : pyIsNa v with
          | true => exact Or.inr rfl
          | false => exact absurd ⟨htv, hnav⟩ hcase
    have hrs := get_season_type_of_falsy v h'
    have hnc := falsy_no_season_substring v h'
    rw [hrs, hnc.1, hnc.2]
    exact ⟨Or.inl rfl, by decide, by decide, by decide, by decide, by decide⟩

/-- On float arguments (the Series.mean results fed to it), the core
importer's _safe_float agrees with the variants' _safe_float. -/
theorem safe_float_agrees_on_floats (m : PyFloat) :
    StatsImporter.safe_float (.float m) = FastPlayerStatsImporter.safe_float (.float m) := by
  cases m <;> rfl

/-- C2 counterexample: on the May 2020 playoff row, the fast importer's
_process_chunk assigns season "2020-21" to the resulting aggregate while
the core StatsImporter assigns "2019-20" — the duplicated variants do not
assign the same season label to each game row, so their per-(player,
season) aggregates differ from the core's. -/
theorem C2_counterexample_playoff_row :
    FastPlayerStatsImporter.fastRowSeason mayPlayoffRow ≠
      StatsImporter.playerRowSeason mayPlayoffRow ∧
    (FastPlayerStatsImporter.process_chunk [("LeBron James", "p1")] [mayPlayoffRow]).map
        (fun d => d.season) = ["2020-21"] ∧
    (StatsImporter.playerUpserts [("LeBron James", "p1")] (fun _ => false)
        [mayPlayoffRow]).map (fun u => u.2.season) = ["2019-20"] := by
  refine ⟨by decide, by decide, by decide⟩

/-- C2 amended: the duplicated fast and working importer variants perform
the same aggregation as each other (identical records for every chunk and
mapping), and their per-group games-played counts and per-game averages
coincide with the core StatsImporter's aggregation of the same group; but
they assign season = calendar year of gameDate with no playoff
adjustment, agreeing with the core's season label exactly on rows that
are not Playoffs games of April through June, and they group by
(firstName, lastName, season) without the core's gameType component. -/
theorem C2_variants_agree_amended (playerM : List (String × String))
    (chunk : List PlayerRow) (r : PlayerRow)
    (h : ¬(r.gameType = "Playoffs" ∧ 4 ≤ r.month ∧ r.month ≤ 6)) :
    FastPlayerStatsImporter.process_chunk playerM chunk =
      WorkingPlayerStatsImporter.process_chunk_working playerM chunk ∧
    FastPlayerStatsImporter.fastRowSeason r = StatsImporter.playerRowSeason r ∧
    (∀ (g : List PlayerRow) (pid s gt : String),
      forgetSeasonType (StatsImporter.process_player_stats_group g pid s gt) =
        FastPlayerStatsImporter.calculate_player_stats g pid s) := by
  refine ⟨rfl, ?_, ?_⟩
  · have hb : (r.gameType == "Playoffs" && (4 ≤ r.month && r.month ≤ 6)) = false := by
      by_cases h1 : r.gameType = "Playoffs" <;> by_cases h2 : 4 ≤ r.month <;>
        by_cases h3 : r.month ≤ 6 <;> simp [h1, h2, h3] <;> exact absurd ⟨h1, h2, h3⟩ h
    unfold FastPlayerStatsImporter.fastRowSeason StatsImporter.playerRowSeason
      StatsImporter.seasonYearOf
    rw [hb, if_neg Bool.false_ne_true]
  · intro g pid s gt
    simp [forgetSeasonType, StatsImporter.process_player_stats_group,
      FastPlayerStatsImporter.calculate_player_stats, safe_float_agrees_on_floats]

/-- C2 amended witness: the amended theorem evaluated on the November
2020 regular-season row with an empty chunk and mapping. -/
theorem C2_variants_agree_amended_witness :
    FastPlayerStatsImporter.process_chunk [] [] =
      WorkingPlayerStatsImporter.process_chunk_working [] [] ∧
    FastPlayerStatsImporter.fastRowSeason novemberRegularRow =
      StatsImporter.playerRowSeason novemberRegularRow ∧
    (∀ (g : List PlayerRow) (pid s gt : String),
      forgetSeasonType (StatsImporter.process_player_stats_group g pid s gt) =
        FastPlayerStatsImporter.calculate_player_stats g pid s) :=
  C2_variants_agree_amended [] [] novemberRegularRow (by decide)

/-- C7 witness: the amended theorem evaluated concretely. A one-group
team or player import whose database write raises ends with one skipped
group and an untouched table; the same import whose aggregation raises
ends in exactly the initial state; a one-row game import whose
create_game raises ends with one skipped row. -/
theorem C7_insert_exception_skips_processing_exception_continues_witness :
    StatsImporter.import_team_stats_from_csv_checked [("Celtics", "T1")] [] true
        (fun _ => false) (fun _ => true) 0 [sampleTeamRow 1] ⟨[], 0, 0⟩ = ⟨[], 0, 1⟩ ∧
    StatsImporter.import_team_stats_from_csv_checked [("Celtics", "T1")] [] true
        (fun _ => true) (fun _ => false) 0 [sampleTeamRow 1] ⟨[], 0, 0⟩ = ⟨[], 0, 0⟩ ∧
    StatsImporter.import_player_stats_from_csv_checked [("LeBron James", "p1")]
        (fun _ => false) (fun _ => true) 0 [novemberRegularRow] ⟨[], 0, 0⟩ = ⟨[], 0, 1⟩ ∧
    StatsImporter.import_player_stats_from_csv_checked [("LeBron James", "p1")]
        (fun _ => true) (fun _ => false) 0 [novemberRegularRow] ⟨[], 0, 0⟩ = ⟨[], 0, 0⟩ ∧
    GameImporter.import_games_from_csv (fun _ : Unit => some ⟨"2020-01-01", "h", "a"⟩) []
        (fun _ => true) [()] ⟨0, 0⟩ = ⟨0, 1⟩ := by
  have h := C7_insert_exception_skips_processing_exception_continues
      [("Celtics", "T1")] [] true (fun _ => false) (fun _ => true)
      (fun _ => true) (fun _ => false) 0 [sampleTeamRow 1] [] []
      (("Celtics", "2020-21"), [sampleTeamRow 1]) ⟨[], 0, 0⟩ "T1"
      (by decide) rfl rfl rfl rfl
      [("LeBron James", "p1")] (fun _ => false) (fun _ => true)
      (fun _ => true) (fun _ => false) [novemberRegularRow] [] []
      (("LeBron", "James", "2020-21", "Regular Season"), [novemberRegularRow])
      ⟨[], 0, 0⟩ "p1"
      (by decide) (by decide) rfl rfl rfl
      (fun _ : Unit => some ⟨"2020-01-01", "h", "a"⟩) [] (fun _ => true) [] [] ()
      ⟨"2020-01-01", "h", "a"⟩ ⟨0, 0⟩ rfl rfl
  exact ⟨h.1, h.2.1, h.2.2.1, h.2.2.2.1, h.2.2.2.2⟩
